import Mathlib

/-!
Verification of the clinical-notes generation-validation pipeline
(src/pipeline.py) against its specification.

Modelling conventions (shallow embedding):
* JSON values are the inductive `Json`.
* A raw model-response string is modelled by its outcome under Python
  `json` parsing: `RawText := Except String Json`, where `Except.error m`
  stands for any string whose JSON parse fails with message `m`, and
  `Except.ok d` stands for a string that parses to the document `d`.
  Serialisation (`json.dumps`) composed with parsing is the identity, so
  the serialized mock fallback of `call_model` is `Except.ok mock_response`.
* The external OpenAI call is a parameter
  `oracle : String → Except String RawText` (prompt ↦ failure or response
  text); `call_model` wraps it exactly as the Python `try/except` does.
* Python exceptions escaping a stage are modelled by `Except String`;
  pydantic's `ValidationError.errors()` list is a `List String` after the
  formatting done in `validation_node`. The code targets pydantic v2
  (`field_validator`, `model_validate_json`, `min_length`/`max_length`),
  whose `model_validate_json` raises `ValidationError` — not
  `json.JSONDecodeError` — on malformed JSON; the embedding follows that
  behaviour.
-/

/-- JSON documents, as produced by Python `json` parsing. -/
inductive Json where
  | null : Json
  | bool (b : Bool) : Json
  | num (n : Int) : Json
  | str (s : String) : Json
  | arr (items : List Json) : Json
  | obj (fields : List (String × Json)) : Json
deriving Repr

/-- A raw response string, seen through JSON parsing (see header comment). -/
abbrev RawText := Except String Json

/-- The JSON-parse outcome of the empty string `""`, with the parse-failure
detail reported by pydantic v2 (the `json_invalid` error message detail of
its Rust JSON parser). -/
def emptyTextParse : RawText :=
  Except.error "EOF while parsing a value at line 1 column 0"

/-- Embeds `RiskAssessment` (src/pipeline.py:32-34). The `Literal` constraint
on `level` is enforced by the validator, not the type. -/
structure RiskAssessment where
  level : String
  signals : List String
deriving Repr, DecidableEq

/-- Embeds `ClinicalReport` (src/pipeline.py:36-38). -/
structure ClinicalReport where
  required : Bool
  summary : String
deriving Repr, DecidableEq

/-- Embeds `ClinicalOutput` (src/pipeline.py:40-52): the validated payload.
Cardinality, word-count and enumeration constraints are enforced by
`model_validate` below. -/
structure ClinicalOutput where
  analysis : String
  themes : List String
  signifiers : List String
  hypotheses : List String
  questions : List String
  risk_assessment : RiskAssessment
  clinical_report : ClinicalReport
deriving Repr, DecidableEq

/-- Worker for `pySplit`: walks the characters, accumulating the current
token (reversed) in `acc`; whitespace closes the token, and empty tokens
are never produced. -/
def pySplitAux : List Char → List Char → List String
  | [], acc => if acc.isEmpty then [] else [String.mk acc.reverse]
  | c :: cs, acc =>
      if c.isWhitespace then
        if acc.isEmpty then pySplitAux cs []
        else String.mk acc.reverse :: pySplitAux cs []
      else pySplitAux cs (c :: acc)

/-- Python `str.split()` with no arguments: split on runs of whitespace,
dropping empty tokens. -/
def pySplit (s : String) : List String :=
  pySplitAux s.data []

/-- `len(v.split())` in `validate_analysis_length` (src/pipeline.py:57). -/
def wordCount (s : String) : Nat := (pySplit s).length

/-- Embeds the `analysis` field validator `validate_analysis_length`
(src/pipeline.py:54-67): returns the value unchanged, or raises
(`Except.error`) when the word count is below 40 or above 200. -/
def validate_analysis_length (v : String) : Except String String :=
  let word_count := wordCount v
  let min_words := 40
  let max_words := 200
  if word_count < min_words then
    Except.error ("Análise muito curta (" ++ toString word_count ++
      " palavras). Mínimo esperado: " ++ toString min_words ++ ".")
  else if word_count > max_words then
    Except.error ("Análise muito longa (" ++ toString word_count ++
      " palavras). Máximo esperado: " ++ toString max_words ++ ".")
  else
    Except.ok v

/-- Extracts a JSON string, as pydantic `str` coercion does in strict JSON
mode: only a JSON string validates. -/
def jsonStr? : Json → Option String
  | Json.str s => some s
  | _ => none

/-- Field lookup in a parsed JSON object (Python dict access by key). -/
def lookupField (fields : List (String × Json)) (key : String) : Option Json :=
  match fields.find? (fun kv => kv.1 == key) with
  | some kv => some kv.2
  | none => none

/-- Validates the elements of a JSON array as strings, collecting one
error per non-string element (pydantic item validation), with `i` the
index of the first element. Returns the extracted strings when every
element validates. -/
def strItemsAux (loc : String) (i : Nat) : List Json → Option (List String) × List String
  | [] => (some [], [])
  | Json.str s :: rest =>
      let r := strItemsAux loc (i + 1) rest
      (r.1.map (fun ys => s :: ys), r.2)
  | _ :: rest =>
      let r := strItemsAux loc (i + 1) rest
      (none, ("Validation Error: Input should be a valid string at (" ++ loc ++
        ", " ++ toString i ++ ")") :: r.2)

/-- Pydantic validation of the `analysis` field: type check, then the
custom `validate_analysis_length` validator (src/pipeline.py:44,54-67). -/
def validateAnalysisField (j : Option Json) : Option String × List String :=
  match j with
  | none => (none, ["Validation Error: Field required at (analysis,)"])
  | some (Json.str s) =>
      match validate_analysis_length s with
      | Except.ok v => (some v, [])
      | Except.error m => (none, ["Validation Error: Value error, " ++ m ++ " at (analysis,)"])
  | some _ => (none, ["Validation Error: Input should be a valid string at (analysis,)"])

/-- Pydantic validation of a `List[str]` field carrying
`Field(min_length=lo, max_length=hi)` (src/pipeline.py:46-49): type check,
cardinality check, per-element checks; all violations collected. -/
def validateStrListField (loc : String) (lo hi : Nat) (j : Option Json) :
    Option (List String) × List String :=
  match j with
  | none => (none, ["Validation Error: Field required at (" ++ loc ++ ",)"])
  | some (Json.arr xs) =>
      let lenErrs :=
        if xs.length < lo then
          ["Validation Error: List should have at least " ++ toString lo ++
            " items after validation, not " ++ toString xs.length ++
            " at (" ++ loc ++ ",)"]
        else if xs.length > hi then
          ["Validation Error: List should have at most " ++ toString hi ++
            " items after validation, not " ++ toString xs.length ++
            " at (" ++ loc ++ ",)"]
        else []
      let items := strItemsAux loc 0 xs
      let errs := lenErrs ++ items.2
      (if errs.isEmpty then items.1 else none, errs)
  | some _ => (none, ["Validation Error: Input should be a valid list at (" ++ loc ++ ",)"])

/-- Combines two sub-field validation outcomes of a nested pydantic model:
errors are concatenated unconditionally, the value is built when both
sub-fields produced one. -/
def combine2 {α β γ : Type} (mk : α → β → γ)
    (x : Option α × List String) (y : Option β × List String) :
    Option γ × List String :=
  match x.1, y.1 with
  | some a, some b => (some (mk a b), x.2 ++ y.2)
  | _, _ => (none, x.2 ++ y.2)

/-- Pydantic validation of `RiskAssessment.level`
(src/pipeline.py:33): must equal one of the `Literal` values `"baixo"`,
`"médio"`, `"alto"` (case-sensitive). -/
def validateLevel (j : Option Json) : Option String × List String :=
  match j with
  | none => (none, ["Validation Error: Field required at (risk_assessment, level)"])
  | some (Json.str s) =>
      if s = "baixo" || s = "médio" || s = "alto" then (some s, [])
      else (none, ["Validation Error: Input should be baixo, médio or alto at (risk_assessment, level)"])
  | some _ => (none, ["Validation Error: Input should be baixo, médio or alto at (risk_assessment, level)"])

/-- Pydantic validation of `RiskAssessment.signals` (src/pipeline.py:34):
a list of strings, with no cardinality bound. -/
def validateSignals (j : Option Json) : Option (List String) × List String :=
  match j with
  | none => (none, ["Validation Error: Field required at (risk_assessment, signals)"])
  | some (Json.arr xs) => strItemsAux "risk_assessment, signals" 0 xs
  | some _ => (none, ["Validation Error: Input should be a valid list at (risk_assessment, signals)"])

/-- Pydantic validation of the nested `risk_assessment` model
(src/pipeline.py:32-34,51). -/
def validateRisk (j : Option Json) : Option RiskAssessment × List String :=
  match j with
  | none => (none, ["Validation Error: Field required at (risk_assessment,)"])
  | some (Json.obj fs) =>
      combine2 RiskAssessment.mk
        (validateLevel (lookupField fs "level"))
        (validateSignals (lookupField fs "signals"))
  | some _ => (none, ["Validation Error: Input should be a valid dictionary or instance of RiskAssessment at (risk_assessment,)"])

/-- Pydantic validation of `ClinicalReport.required` (src/pipeline.py:37):
a boolean. -/
def validateRequiredField (j : Option Json) : Option Bool × List String :=
  match j with
  | none => (none, ["Validation Error: Field required at (clinical_report, required)"])
  | some (Json.bool b) => (some b, [])
  | some _ => (none, ["Validation Error: Input should be a valid boolean at (clinical_report, required)"])

/-- Pydantic validation of `ClinicalReport.summary` (src/pipeline.py:38):
a string. -/
def validateSummaryField (j : Option Json) : Option String × List String :=
  match j with
  | none => (none, ["Validation Error: Field required at (clinical_report, summary)"])
  | some (Json.str s) => (some s, [])
  | some _ => (none, ["Validation Error: Input should be a valid string at (clinical_report, summary)"])

/-- Pydantic validation of the nested `clinical_report` model
(src/pipeline.py:36-38,52). -/
def validateReport (j : Option Json) : Option ClinicalReport × List String :=
  match j with
  | none => (none, ["Validation Error: Field required at (clinical_report,)"])
  | some (Json.obj fs) =>
      combine2 ClinicalReport.mk
        (validateRequiredField (lookupField fs "required"))
        (validateSummaryField (lookupField fs "summary"))
  | some _ => (none, ["Validation Error: Input should be a valid dictionary or instance of ClinicalReport at (clinical_report,)"])

/-- Combines the seven per-field validation outcomes, in field declaration
order (src/pipeline.py:44-52): the error lists are concatenated
unconditionally (pydantic collects every violation before raising), and
the object is constructed exactly when every field produced a value. -/
def combineFields (a : Option String × List String)
    (t sg hy qs : Option (List String) × List String)
    (ra : Option RiskAssessment × List String)
    (cr : Option ClinicalReport × List String) : Option ClinicalOutput × List String :=
  match a.1, t.1, sg.1, hy.1, qs.1, ra.1, cr.1 with
  | some av, some tv, some sgv, some hyv, some qsv, some rav, some crv =>
      (some ⟨av, tv, sgv, hyv, qsv, rav, crv⟩,
        a.2 ++ t.2 ++ sg.2 ++ hy.2 ++ qs.2 ++ ra.2 ++ cr.2)
  | _, _, _, _, _, _, _ =>
      (none, a.2 ++ t.2 ++ sg.2 ++ hy.2 ++ qs.2 ++ ra.2 ++ cr.2)

/-- `ClinicalOutput.model_validate` on a parsed JSON document: checks the
fields in declaration order (src/pipeline.py:44-52), collecting every
violation, and produces the populated object exactly when each field
validated. -/
def model_validate (doc : Json) : Option ClinicalOutput × List String :=
  match doc with
  | Json.obj fields =>
      combineFields
        (validateAnalysisField (lookupField fields "analysis"))
        (validateStrListField "themes" 3 6 (lookupField fields "themes"))
        (validateStrListField "signifiers" 3 8 (lookupField fields "signifiers"))
        (validateStrListField "hypotheses" 2 4 (lookupField fields "hypotheses"))
        (validateStrListField "questions" 3 6 (lookupField fields "questions"))
        (validateRisk (lookupField fields "risk_assessment"))
        (validateReport (lookupField fields "clinical_report"))
  | _ => (none, ["Validation Error: Input should be a valid dictionary or instance of ClinicalOutput at ()"])

/-- The error descriptors contributed by the `analysis` field alone. -/
def analysisErrors (fields : List (String × Json)) : List String :=
  (validateAnalysisField (lookupField fields "analysis")).2

/-- The error descriptors contributed by the `themes` field alone. -/
def themesErrors (fields : List (String × Json)) : List String :=
  (validateStrListField "themes" 3 6 (lookupField fields "themes")).2

/-- The error descriptors contributed by the `signifiers` field alone. -/
def signifiersErrors (fields : List (String × Json)) : List String :=
  (validateStrListField "signifiers" 3 8 (lookupField fields "signifiers")).2

/-- The error descriptors contributed by the `hypotheses` field alone. -/
def hypothesesErrors (fields : List (String × Json)) : List String :=
  (validateStrListField "hypotheses" 2 4 (lookupField fields "hypotheses")).2

/-- The error descriptors contributed by the `questions` field alone. -/
def questionsErrors (fields : List (String × Json)) : List String :=
  (validateStrListField "questions" 3 6 (lookupField fields "questions")).2

/-- The error descriptors contributed by the `risk_assessment` field alone. -/
def riskErrors (fields : List (String × Json)) : List String :=
  (validateRisk (lookupField fields "risk_assessment")).2

/-- The error descriptors contributed by the `clinical_report` field alone. -/
def reportErrors (fields : List (String × Json)) : List String :=
  (validateReport (lookupField fields "clinical_report")).2

/-- Embeds `ClinicalState` (src/pipeline.py:73-85). `raw_response` is the
optional raw model response, modelled through JSON parsing (see header). -/
structure ClinicalState where
  filename : String
  input_text : String
  prompt_version : String
  raw_response : Option RawText
  parsed_output : Option ClinicalOutput
  errors : List String
deriving Repr

/-- The mock fallback payload `mock_response` hardcoded inside `call_model`
(src/pipeline.py:126-152), as the JSON document its `json.dumps` form
parses back to. -/
def mock_response : Json :=
  Json.obj
    [ ("analysis", Json.str "O paciente apresenta uma clara manifestação de resistência transferencial através do manejo do tempo e da palavra. O atraso recorrente (\x27sempre\x27) configura-se como um acting out, uma tentativa de controlar o setting analítico ou evitar o contato com conteúdos angustiantes. A percepção de que faz isso \x27de propósito\x27 sugere um insight incipiente sobre a determinação inconsciente de seus atos e uma possível formação de compromisso sintomática. O silêncio que se segue à chegada atua como uma barreira secundária, reforçando a recusa em se entregar à associação livre. Essa dinâmica aponta para uma dificuldade em lidar com a demanda do Outro, possivelmente expressando hostilidade latente ou medo da dependência."),
      ("themes", Json.arr [Json.str "Resistência", Json.str "Transferência", Json.str "Controle", Json.str "Silêncio", Json.str "Tempo"]),
      ("signifiers", Json.arr [Json.str "Atrasado", Json.str "Propósito", Json.str "Silêncio", Json.str "Sempre", Json.str "Chego"]),
      ("hypotheses", Json.arr
        [ Json.str "O atraso funciona como uma defesa contra a angústia de castração ou vulnerabilidade na sessão.",
          Json.str "O silêncio é uma extensão da agressividade passiva manifestada pelo atraso.",
          Json.str "A intencionalidade percebida indica um gozo na manutenção do sintoma de evitação." ]),
      ("questions", Json.arr
        [ Json.str "O que você sente ou pensa nos minutos exatos antes de sair para a sessão?",
          Json.str "A quem esse \x27propósito\x27 de se atrasar estaria endereçado?",
          Json.str "O silêncio, quando você chega, é vivido como vazio ou como excesso de pensamentos?",
          Json.str "Existem outras situações em sua vida onde o atraso é uma regra?" ]),
      ("risk_assessment", Json.obj
        [ ("level", Json.str "baixo"),
          ("signals", Json.arr
            [ Json.str "Ausência de ideação suicida ou agressiva explícita",
              Json.str "Discurso focado em mecanismos de defesa neuróticos" ]) ]),
      ("clinical_report", Json.obj
        [ ("required", Json.bool false),
          ("summary", Json.str "Paciente relata padrão de resistência caracterizado por atrasos sistemáticos e mutismo subsequente, reconhecendo certa intencionalidade no ato.") ]) ]

/-- Embeds `call_model` (src/pipeline.py:120-174). The external OpenAI call
is the parameter `oracle` (prompt ↦ transport failure or response text);
on success the response is returned unmodified, on any exception the
serialized mock payload is returned instead. -/
def call_model (oracle : String → Except String RawText) (prompt : String) : RawText :=
  match oracle prompt with
  | Except.ok response => response
  | Except.error _ => Except.ok mock_response

/-- Embeds `load_prompt` (src/pipeline.py:91-99): the prompt file store is
the parameter `promptFiles` (version ↦ template when the file exists);
a missing file falls back to the built-in template. -/
def load_prompt (promptFiles : String → Option String) (prompt_version : String) : String :=
  match promptFiles prompt_version with
  | some template => template
  | none =>
      "\n        Você é uma IA de Psicanálise. Analise o texto abaixo e retorne APENAS um JSON válido.\n        Texto: \x7bINPUT\x7d\n        "

/-- Embeds `generation_node` (src/pipeline.py:180-195): renders the prompt
template with the input text substituted and calls the model; the returned
update sets `raw_response`. -/
def generation_node (oracle : String → Except String RawText)
    (promptFiles : String → Option String) (state : ClinicalState) : Option RawText :=
  let prompt_template := load_prompt promptFiles state.prompt_version
  let full_prompt := prompt_template.replace "\x7bINPUT\x7d" state.input_text
  some (call_model oracle full_prompt)

/-- Embeds `validation_node` (src/pipeline.py:197-224): reads
`raw_response` with `""` as the default for an absent value, then runs
`ClinicalOutput.model_validate_json` on it. The code is written against
pydantic v2, whose `model_validate_json` raises `ValidationError` (a
single error of type `json_invalid`, message `Invalid JSON: <detail>`,
location `()`) for malformed JSON and never raises
`json.JSONDecodeError`; a parse failure is therefore formatted by the
`except ValidationError` handler (src/pipeline.py:211-213) with the same
`Validation Error:` tag as field violations, and the
`except json.JSONDecodeError` handler with its distinct
`Erro de Parse JSON` tag (src/pipeline.py:215-216) is dead code. -/
def validation_node (raw_response : Option RawText) : Option ClinicalOutput × List String :=
  let raw : RawText := raw_response.getD emptyTextParse
  match raw with
  | Except.error e => (none, ["Validation Error: Invalid JSON: " ++ e ++ " at ()"])
  | Except.ok doc => model_validate doc

/-- The compiled two-node LangGraph `generator → validator → END`
(src/pipeline.py:230-242) applied to a state: runs `generation_node`,
merges its update, then runs `validation_node` and merges its update. -/
def app_invoke (oracle : String → Except String RawText)
    (promptFiles : String → Option String) (state : ClinicalState) : ClinicalState :=
  let s1 := { state with raw_response := generation_node oracle promptFiles state }
  let v := validation_node s1.raw_response
  { s1 with parsed_output := v.1, errors := v.2 }

/-- Embeds the per-item result record built by `main`
(src/pipeline.py:293-306). `output` is the dumped `ClinicalOutput` when
present. -/
structure ItemResult where
  file : String
  ok : Bool
  errors : List String
  output : Option ClinicalOutput
deriving Repr, DecidableEq

/-- The `metrics` object of the final payload (src/pipeline.py:312). -/
structure Metrics where
  ok : Nat
  failed : Nat
deriving Repr, DecidableEq

/-- Embeds the consolidated payload built by `main` (src/pipeline.py:309-314). -/
structure RunReport where
  prompt_version : String
  total : Nat
  metrics : Metrics
  results : List ItemResult
deriving Repr, DecidableEq

/-- The fresh initial state `main` builds per input item
(src/pipeline.py:267-274). -/
def initialState (fname text prompt_version : String) : ClinicalState :=
  { filename := fname, input_text := text, prompt_version := prompt_version,
    raw_response := none, parsed_output := none, errors := [] }

/-- One iteration of the `main` loop (src/pipeline.py:276-306): running the
graph on the fresh state is `step`, whose `Except.error` case models an
unexpected Python exception caught by the outer `try/except`. -/
def processOne (step : ClinicalState → Except String ClinicalState)
    (prompt_version : String) (item : String × String) : ItemResult :=
  match step (initialState item.1 item.2 prompt_version) with
  | Except.ok final_state =>
      let is_ok := final_state.parsed_output.isSome && final_state.errors.isEmpty
      { file := item.1, ok := is_ok, errors := final_state.errors,
        output := if is_ok then final_state.parsed_output else none }
  | Except.error e =>
      { file := item.1, ok := false, errors := ["Runtime Error: " ++ e], output := none }

/-- One turn of the loop of `main` (src/pipeline.py:276-306) on the
accumulator `(results, ok_count)`: appends the item result to `results`
and bumps `ok_count` when the item succeeded. -/
def mainLoopStep (step : ClinicalState → Except String ClinicalState)
    (prompt_version : String) (acc : List ItemResult × Nat)
    (item : String × String) : List ItemResult × Nat :=
  let r := processOne step prompt_version item
  (acc.1 ++ [r], acc.2 + (if r.ok then 1 else 0))

/-- The loop of `main` (src/pipeline.py:264-306), starting from empty
`results` and `ok_count = 0`. -/
def mainLoop (step : ClinicalState → Except String ClinicalState)
    (prompt_version : String) (items : List (String × String)) :
    List ItemResult × Nat :=
  items.foldl (mainLoopStep step prompt_version) ([], 0)

/-- Embeds the report construction of `main` (src/pipeline.py:253-318):
runs the loop over all items and consolidates the payload. -/
def runBatch (step : ClinicalState → Except String ClinicalState)
    (prompt_version : String) (items : List (String × String)) : RunReport :=
  let acc := mainLoop step prompt_version items
  { prompt_version := prompt_version,
    total := acc.1.length,
    metrics := { ok := acc.2, failed := acc.1.length - acc.2 },
    results := acc.1 }

/-- The fault-free instantiation of the per-item step: `app.invoke` never
raising (src/pipeline.py:278). -/
def pipelineStep (oracle : String → Except String RawText)
    (promptFiles : String → Option String) (state : ClinicalState) :
    Except String ClinicalState :=
  Except.ok (app_invoke oracle promptFiles state)

/-- A string of exactly `n` whitespace-separated words. -/
def mkWords (n : Nat) : String :=
  String.intercalate " " (List.replicate n "w")

/-- Written from the specification text (§3), not from the code: a
`ClinicalOutput` satisfies every cardinality, word-count and enumeration
constraint of the data model. -/
def SpecValid (o : ClinicalOutput) : Prop :=
  (40 ≤ wordCount o.analysis ∧ wordCount o.analysis ≤ 200) ∧
  (3 ≤ o.themes.length ∧ o.themes.length ≤ 6) ∧
  (3 ≤ o.signifiers.length ∧ o.signifiers.length ≤ 8) ∧
  (2 ≤ o.hypotheses.length ∧ o.hypotheses.length ≤ 4) ∧
  (3 ≤ o.questions.length ∧ o.questions.length ≤ 6) ∧
  o.risk_assessment.level ∈ (["baixo", "médio", "alto"] : List String)

instance (o : ClinicalOutput) : Decidable (SpecValid o) := by
  unfold SpecValid; infer_instance

/-- The `ClinicalOutput` the mock fallback payload validates to. -/
def mockParsed : ClinicalOutput :=
  (model_validate mock_response).1.getD
    ⟨"", [], [], [], [], ⟨"", []⟩, ⟨false, ""⟩⟩

set_option maxRecDepth 8000

theorem strItemsAux_isSome (loc : String) (xs : List Json) : ∀ i : Nat,
    (strItemsAux loc i xs).1.isSome ↔ (strItemsAux loc i xs).2 = [] := by
  induction xs with
  | nil => intro i; simp [strItemsAux]
  | cons x rest ih =>
      intro i
      cases x with
      | str s => simpa [strItemsAux] using ih (i + 1)
      | null => simp [strItemsAux]
      | bool b => simp [strItemsAux]
      | num n => simp [strItemsAux]
      | arr ys => simp [strItemsAux]
      | obj fs => simp [strItemsAux]

theorem validateAnalysisField_isSome (j : Option Json) :
    (validateAnalysisField j).1.isSome ↔ (validateAnalysisField j).2 = [] := by
  cases j with
  | none => simp [validateAnalysisField]
  | some v =>
      cases v with
      | str s =>
          cases h : validate_analysis_length s with
          | ok w => simp [validateAnalysisField, h]
          | error m => simp [validateAnalysisField, h]
      | null => simp [validateAnalysisField]
      | bool b => simp [validateAnalysisField]
      | num n => simp [validateAnalysisField]
      | arr ys => simp [validateAnalysisField]
      | obj fs => simp [validateAnalysisField]

theorem ifEmptyHelper {α : Type} (v : Option α × List String) (le : List String)
    (h : v.1.isSome ↔ v.2 = []) :
    (if (le ++ v.2).isEmpty then v.1 else none).isSome ↔ le ++ v.2 = [] := by
  by_cases he : (le ++ v.2) = []
  · have hb : (le ++ v.2).isEmpty = true := List.isEmpty_iff.mpr he
    rw [List.append_eq_nil] at he
    simp [hb, he.1, he.2, h.mpr he.2]
  · have hb : (le ++ v.2).isEmpty = false := by
      rw [Bool.eq_false_iff]
      intro hc
      exact he (List.isEmpty_iff.mp hc)
    simp [hb, he]

theorem validateStrListField_isSome (loc : String) (lo hi : Nat) (j : Option Json) :
    (validateStrListField loc lo hi j).1.isSome ↔ (validateStrListField loc lo hi j).2 = [] := by
  cases j with
  | none => simp [validateStrListField]
  | some v =>
      cases v with
      | arr xs =>
          simp only [validateStrListField]
          exact ifEmptyHelper (strItemsAux loc 0 xs) _ (strItemsAux_isSome loc xs 0)
      | null => simp [validateStrListField]
      | bool b => simp [validateStrListField]
      | num n => simp [validateStrListField]
      | str s => simp [validateStrListField]
      | obj fs => simp [validateStrListField]

theorem combine2_isSome {α β γ : Type} (mk : α → β → γ)
    (x : Option α × List String) (y : Option β × List String)
    (hx : x.1.isSome ↔ x.2 = []) (hy : y.1.isSome ↔ y.2 = []) :
    (combine2 mk x y).1.isSome ↔ (combine2 mk x y).2 = [] := by
  obtain ⟨x1, x2⟩ := x
  obtain ⟨y1, y2⟩ := y
  cases x1 <;> cases y1 <;> simp_all [combine2]

theorem validateLevel_isSome (j : Option Json) :
    (validateLevel j).1.isSome ↔ (validateLevel j).2 = [] := by
  cases j with
  | none => simp [validateLevel]
  | some v =>
      cases v with
      | str s =>
          by_cases h : s = "baixo" || s = "médio" || s = "alto" <;>
            simp [validateLevel, h]
      | null => simp [validateLevel]
      | bool b => simp [validateLevel]
      | num n => simp [validateLevel]
      | arr ys => simp [validateLevel]
      | obj fs => simp [validateLevel]

theorem validateSignals_isSome (j : Option Json) :
    (validateSignals j).1.isSome ↔ (validateSignals j).2 = [] := by
  cases j with
  | none => simp [validateSignals]
  | some v =>
      cases v with
      | arr xs =>
          simpa [validateSignals] using
            strItemsAux_isSome "risk_assessment, signals" xs 0
      | null => simp [validateSignals]
      | bool b => simp [validateSignals]
      | num n => simp [validateSignals]
      | str s => simp [validateSignals]
      | obj fs => simp [validateSignals]

theorem validateRequiredField_isSome (j : Option Json) :
    (validateRequiredField j).1.isSome ↔ (validateRequiredField j).2 = [] := by
  cases j with
  | none => simp [validateRequiredField]
  | some v => cases v <;> simp [validateRequiredField]

theorem validateSummaryField_isSome (j : Option Json) :
    (validateSummaryField j).1.isSome ↔ (validateSummaryField j).2 = [] := by
  cases j with
  | none => simp [validateSummaryField]
  | some v => cases v <;> simp [validateSummaryField]

theorem validateRisk_isSome (j : Option Json) :
    (validateRisk j).1.isSome ↔ (validateRisk j).2 = [] := by
  cases j with
  | none => simp [validateRisk]
  | some v =>
      cases v with
      | obj fs =>
          simp only [validateRisk]
          exact combine2_isSome _ _ _
            (validateLevel_isSome (lookupField fs "level"))
            (validateSignals_isSome (lookupField fs "signals"))
      | null => simp [validateRisk]
      | bool b => simp [validateRisk]
      | num n => simp [validateRisk]
      | str s => simp [validateRisk]
      | arr ys => simp [validateRisk]

theorem validateReport_isSome (j : Option Json) :
    (validateReport j).1.isSome ↔ (validateReport j).2 = [] := by
  cases j with
  | none => simp [validateReport]
  | some v =>
      cases v with
      | obj fs =>
          simp only [validateReport]
          exact combine2_isSome _ _ _
            (validateRequiredField_isSome (lookupField fs "required"))
            (validateSummaryField_isSome (lookupField fs "summary"))
      | null => simp [validateReport]
      | bool b => simp [validateReport]
      | num n => simp [validateReport]
      | str s => simp [validateReport]
      | arr ys => simp [validateReport]

theorem combineFields_snd (a : Option String × List String)
    (t sg hy qs : Option (List String) × List String)
    (ra : Option RiskAssessment × List String)
    (cr : Option ClinicalReport × List String) :
    (combineFields a t sg hy qs ra cr).2
      = a.2 ++ t.2 ++ sg.2 ++ hy.2 ++ qs.2 ++ ra.2 ++ cr.2 := by
  obtain ⟨a1, a2⟩ := a
  obtain ⟨t1, t2⟩ := t
  obtain ⟨sg1, sg2⟩ := sg
  obtain ⟨hy1, hy2⟩ := hy
  obtain ⟨qs1, qs2⟩ := qs
  obtain ⟨ra1, ra2⟩ := ra
  obtain ⟨cr1, cr2⟩ := cr
  cases a1 <;> cases t1 <;> cases sg1 <;> cases hy1 <;> cases qs1 <;>
    cases ra1 <;> cases cr1 <;> rfl

theorem combineFields_fst_isSome (a : Option String × List String)
    (t sg hy qs : Option (List String) × List String)
    (ra : Option RiskAssessment × List String)
    (cr : Option ClinicalReport × List String) :
    (combineFields a t sg hy qs ra cr).1.isSome
      = (a.1.isSome && t.1.isSome && sg.1.isSome && hy.1.isSome &&
          qs.1.isSome && ra.1.isSome && cr.1.isSome) := by
  obtain ⟨a1, a2⟩ := a
  obtain ⟨t1, t2⟩ := t
  obtain ⟨sg1, sg2⟩ := sg
  obtain ⟨hy1, hy2⟩ := hy
  obtain ⟨qs1, qs2⟩ := qs
  obtain ⟨ra1, ra2⟩ := ra
  obtain ⟨cr1, cr2⟩ := cr
  cases a1 <;> cases t1 <;> cases sg1 <;> cases hy1 <;> cases qs1 <;>
    cases ra1 <;> cases cr1 <;> rfl

theorem combineFields_isSome (a : Option String × List String)
    (t sg hy qs : Option (List String) × List String)
    (ra : Option RiskAssessment × List String)
    (cr : Option ClinicalReport × List String)
    (ha : a.1.isSome ↔ a.2 = []) (ht : t.1.isSome ↔ t.2 = [])
    (hsg : sg.1.isSome ↔ sg.2 = []) (hhy : hy.1.isSome ↔ hy.2 = [])
    (hqs : qs.1.isSome ↔ qs.2 = []) (hra : ra.1.isSome ↔ ra.2 = [])
    (hcr : cr.1.isSome ↔ cr.2 = []) :
    ((combineFields a t sg hy qs ra cr).1.isSome
      ↔ (combineFields a t sg hy qs ra cr).2 = []) := by
  rw [combineFields_fst_isSome, combineFields_snd]
  simp only [Bool.and_eq_true, List.append_eq_nil]
  rw [ha, ht, hsg, hhy, hqs, hra, hcr]

theorem model_validate_obj_isSome (fields : List (String × Json)) :
    (model_validate (Json.obj fields)).1.isSome
      ↔ (model_validate (Json.obj fields)).2 = [] := by
  simp only [model_validate]
  exact combineFields_isSome _ _ _ _ _ _ _
    (validateAnalysisField_isSome _)
    (validateStrListField_isSome _ _ _ _)
    (validateStrListField_isSome _ _ _ _)
    (validateStrListField_isSome _ _ _ _)
    (validateStrListField_isSome _ _ _ _)
    (validateRisk_isSome _)
    (validateReport_isSome _)

theorem mainLoop_go (step : ClinicalState → Except String ClinicalState)
    (pv : String) (items : List (String × String)) :
    ∀ (rs : List ItemResult) (k : Nat),
    items.foldl (mainLoopStep step pv) (rs, k)
      = (rs ++ items.map (processOne step pv),
         k + (items.map (processOne step pv)).countP (fun r => r.ok)) := by
  induction items with
  | nil => intro rs k; simp
  | cons it rest ih =>
      intro rs k
      rw [List.foldl_cons]
      show rest.foldl (mainLoopStep step pv)
          (rs ++ [processOne step pv it],
            k + (if (processOne step pv it).ok then 1 else 0)) = _
      rw [ih]
      simp only [List.map_cons, List.countP_cons, Prod.mk.injEq]
      constructor
      · simp
      · cases hr : (processOne step pv it).ok
        · simp [hr]
        · simp [hr]
          omega

theorem mainLoop_eq (step : ClinicalState → Except String ClinicalState)
    (pv : String) (items : List (String × String)) :
    mainLoop step pv items
      = (items.map (processOne step pv),
         (items.map (processOne step pv)).countP (fun r => r.ok)) := by
  have h := mainLoop_go step pv items [] 0
  simpa [mainLoop] using h

/-- C2: the word-count rule for `analysis` splits on whitespace and counts
tokens; acceptance holds exactly when the token count lies in [40, 200],
with the stated boundary behaviour at 39, 40, 200 and 201 words. -/
theorem analysis_word_count_rule :
    (∀ s : String, validate_analysis_length s = Except.ok s
        ↔ (40 ≤ wordCount s ∧ wordCount s ≤ 200))
    ∧ validate_analysis_length (mkWords 40) = Except.ok (mkWords 40)
    ∧ (∃ m, validate_analysis_length (mkWords 39) = Except.error m)
    ∧ validate_analysis_length (mkWords 200) = Except.ok (mkWords 200)
    ∧ (∃ m, validate_analysis_length (mkWords 201) = Except.error m) := by
  refine ⟨?_, rfl, ⟨_, rfl⟩, rfl, ⟨_, rfl⟩⟩
  intro s
  unfold validate_analysis_length
  by_cases h1 : wordCount s < 40
  · simp [h1]
  · by_cases h2 : wordCount s > 200
    · simp [h1, h2]
    · simp [h1, h2]
      omega

/-- C6: evaluating the pipeline at a raw text whose JSON parse fails — for
the concrete failing input `""` and in general — the validator returns no
value and exactly one error describing the parse failure, but that error
carries the `Validation Error:` tag shared with field violations (the
pydantic v2 `json_invalid` route); the distinct `Erro de Parse JSON` tag
of the dead `json.JSONDecodeError` handler never appears. -/
theorem parse_failure_validation_tag :
    validation_node (some emptyTextParse)
      = (none, ["Validation Error: Invalid JSON: EOF while parsing a value at line 1 column 0 at ()"])
    ∧ (validation_node (some emptyTextParse)).2.length = 1
    ∧ (∀ e : String, validation_node (some (Except.error e))
        = (none, ["Validation Error: Invalid JSON: " ++ e ++ " at ()"])) :=
  ⟨rfl, rfl, fun _ => rfl⟩

/-- C9: a missing `raw_response` is treated as empty text; the validation
node still terminates normally with an absent parsed output and a
non-empty error list. -/
theorem missing_raw_response_tolerated :
    validation_node none = validation_node (some emptyTextParse)
    ∧ (validation_node none).1 = none
    ∧ (validation_node none).2 ≠ [] :=
  ⟨rfl, rfl, by decide⟩

/-- C10: on the fallback path `call_model` is prompt-insensitive — any two
failing external calls yield the identical serialized fallback payload,
independent of the prompt or failure message. -/
theorem fallback_prompt_insensitive
    (oracle1 oracle2 : String → Except String RawText) (p1 p2 e1 e2 : String)
    (h1 : oracle1 p1 = Except.error e1) (h2 : oracle2 p2 = Except.error e2) :
    call_model oracle1 p1 = call_model oracle2 p2 := by
  simp [call_model, h1, h2]

theorem fallback_prompt_insensitive_witness :
    ((fun _ : String => (Except.error "timeout" : Except String RawText)) "prompt A"
        = Except.error "timeout")
    ∧ ((fun _ : String => (Except.error "quota" : Except String RawText)) "prompt B"
        = Except.error "quota")
    ∧ call_model (fun _ => Except.error "timeout") "prompt A"
        = call_model (fun _ => Except.error "quota") "prompt B" :=
  ⟨rfl, rfl,
    fallback_prompt_insensitive _ _ "prompt A" "prompt B" "timeout" "quota" rfl rfl⟩

/-- C8: the results sequence of the final report has one entry per input
item, in the exact order the items were supplied. -/
theorem results_preserve_order (step : ClinicalState → Except String ClinicalState)
    (pv : String) (items : List (String × String)) :
    (runBatch step pv items).results = items.map (processOne step pv)
    ∧ (runBatch step pv items).results.length = items.length := by
  constructor
  · simp [runBatch, mainLoop_eq]
  · simp [runBatch, mainLoop_eq]

/-- C3: every batch report satisfies
`metrics.ok + metrics.failed = total = len(results)`, with `metrics.ok`
the count of ok results and `metrics.failed` the difference. -/
theorem metrics_invariant (step : ClinicalState → Except String ClinicalState)
    (pv : String) (items : List (String × String)) :
    (runBatch step pv items).metrics.ok + (runBatch step pv items).metrics.failed
        = (runBatch step pv items).total
    ∧ (runBatch step pv items).total = (runBatch step pv items).results.length
    ∧ (runBatch step pv items).metrics.ok
        = (runBatch step pv items).results.countP (fun r => r.ok)
    ∧ (runBatch step pv items).metrics.failed
        = (runBatch step pv items).total - (runBatch step pv items).metrics.ok := by
  have hle : (items.map (processOne step pv)).countP (fun r => r.ok)
      ≤ (items.map (processOne step pv)).length := List.countP_le_length _
  refine ⟨?_, ?_, ?_, ?_⟩
  · simp only [runBatch, mainLoop_eq]
    omega
  · simp [runBatch, mainLoop_eq]
  · simp [runBatch, mainLoop_eq]
  · simp [runBatch, mainLoop_eq]

/-- C4: in every result produced by the batch runner, `ok` holds exactly
when `output` is present and `errors` is empty; a failed result carries no
output. -/
theorem itemresult_ok_iff (step : ClinicalState → Except String ClinicalState)
    (pv : String) (items : List (String × String)) (r : ItemResult)
    (h : r ∈ (runBatch step pv items).results) :
    (r.ok = true ↔ (r.output.isSome = true ∧ r.errors = []))
    ∧ (r.ok = false → r.output = none) := by
  have hres : (runBatch step pv items).results = items.map (processOne step pv) := by
    simp [runBatch, mainLoop_eq]
  rw [hres] at h
  obtain ⟨item, hmem, rfl⟩ := List.mem_map.mp h
  cases hs : step (initialState item.1 item.2 pv) with
  | ok final =>
      constructor
      · simp only [processOne, hs]
        cases hp : final.parsed_output <;> cases he : final.errors <;> simp
      · simp only [processOne, hs]
        cases hp : final.parsed_output <;> cases he : final.errors <;> simp
  | error e => simp [processOne, hs]

theorem itemresult_ok_iff_witness :
    ((⟨"a.txt", false, ["Runtime Error: boom"], none⟩ : ItemResult)
      ∈ (runBatch (fun _ => Except.error "boom") "v2" [("a.txt", "text")]).results)
    ∧ (((⟨"a.txt", false, ["Runtime Error: boom"], none⟩ : ItemResult).ok = true
        ↔ ((⟨"a.txt", false, ["Runtime Error: boom"], none⟩ : ItemResult).output.isSome = true
            ∧ (⟨"a.txt", false, ["Runtime Error: boom"], none⟩ : ItemResult).errors = []))
      ∧ ((⟨"a.txt", false, ["Runtime Error: boom"], none⟩ : ItemResult).ok = false
          → (⟨"a.txt", false, ["Runtime Error: boom"], none⟩ : ItemResult).output = none)) :=
  ⟨by decide,
    itemresult_ok_iff (fun _ => Except.error "boom") "v2" [("a.txt", "text")] _ (by decide)⟩

/-- C5: an unexpected per-item failure does not abort the batch — the item
gets `ok = false`, a single runtime-fault error, no output, and every
other item is still processed, so the total equals the number of inputs. -/
theorem runtime_fault_isolation (step : ClinicalState → Except String ClinicalState)
    (pv : String) (pre post : List (String × String)) (fname text e : String)
    (h : step (initialState fname text pv) = Except.error e) :
    (runBatch step pv (pre ++ (fname, text) :: post)).total
        = pre.length + 1 + post.length
    ∧ (runBatch step pv (pre ++ (fname, text) :: post)).results
        = pre.map (processOne step pv)
          ++ ({ file := fname, ok := false,
                errors := ["Runtime Error: " ++ e], output := none } : ItemResult)
            :: post.map (processOne step pv) := by
  have hp : processOne step pv (fname, text)
      = { file := fname, ok := false, errors := ["Runtime Error: " ++ e],
          output := none } := by
    simp [processOne, h]
  constructor
  · simp [runBatch, mainLoop_eq]
    omega
  · simp [runBatch, mainLoop_eq, hp]

theorem runtime_fault_isolation_witness :
    ((fun _ : ClinicalState => (Except.error "boom" : Except String ClinicalState))
        (initialState "b.txt" "t" "v2") = Except.error "boom")
    ∧ (runBatch (fun _ => Except.error "boom") "v2"
        ([("a.txt", "x")] ++ ("b.txt", "t") :: [("c.txt", "y")])).total
        = [("a.txt", "x")].length + 1 + [("c.txt", "y")].length
    ∧ (runBatch (fun _ => Except.error "boom") "v2"
        ([("a.txt", "x")] ++ ("b.txt", "t") :: [("c.txt", "y")])).results
        = [("a.txt", "x")].map (processOne (fun _ => Except.error "boom") "v2")
          ++ ({ file := "b.txt", ok := false,
                errors := ["Runtime Error: " ++ "boom"], output := none } : ItemResult)
            :: [("c.txt", "y")].map (processOne (fun _ => Except.error "boom") "v2") :=
  ⟨rfl, runtime_fault_isolation (fun _ => Except.error "boom") "v2"
    [("a.txt", "x")] [("c.txt", "y")] "b.txt" "t" "boom" rfl⟩

/-- C1: whenever the external call fails, `call_model` returns the
serialized fallback payload, which passes `ClinicalOutput` validation with
zero errors and satisfies every cardinality, word-count and enumeration
constraint of the data model. -/
theorem fallback_payload_schema_valid
    (oracle : String → Except String RawText) (prompt e : String)
    (h : oracle prompt = Except.error e) :
    call_model oracle prompt = Except.ok mock_response
    ∧ (validation_node (some (call_model oracle prompt))).2 = []
    ∧ (validation_node (some (call_model oracle prompt))).1 = some mockParsed
    ∧ SpecValid mockParsed := by
  have hc : call_model oracle prompt = Except.ok mock_response := by
    simp [call_model, h]
  rw [hc]
  exact ⟨rfl, by decide, by decide, by decide⟩

theorem fallback_payload_schema_valid_witness :
    ((fun _ : String => (Except.error "insufficient_quota" : Except String RawText))
        "any prompt" = Except.error "insufficient_quota")
    ∧ (call_model (fun _ => Except.error "insufficient_quota") "any prompt"
          = Except.ok mock_response
      ∧ (validation_node (some (call_model (fun _ => Except.error "insufficient_quota")
          "any prompt"))).2 = []
      ∧ (validation_node (some (call_model (fun _ => Except.error "insufficient_quota")
          "any prompt"))).1 = some mockParsed
      ∧ SpecValid mockParsed) :=
  ⟨rfl, fallback_payload_schema_valid _ "any prompt" "insufficient_quota" rfl⟩

/-- C7: on any successfully parsed document, the validator collects the
error descriptors of all seven fields, in declaration order, without
stopping at the first violation, and returns a populated value exactly
when the collected error list is empty. -/
theorem validator_collects_all_violations (fields : List (String × Json)) :
    (model_validate (Json.obj fields)).2
        = analysisErrors fields ++ themesErrors fields ++ signifiersErrors fields
          ++ hypothesesErrors fields ++ questionsErrors fields
          ++ riskErrors fields ++ reportErrors fields
    ∧ ((model_validate (Json.obj fields)).1.isSome
        ↔ (model_validate (Json.obj fields)).2 = []) := by
  constructor
  · simp only [model_validate, analysisErrors, themesErrors, signifiersErrors,
      hypothesesErrors, questionsErrors, riskErrors, reportErrors]
    exact combineFields_snd _ _ _ _ _ _ _
  · exact model_validate_obj_isSome fields
